import Mathlib

/-!
A shallow embedding of the users/groups directory service: the relational
model and operations of `user_group_db/models.py` and the tool layer of
`main.py`, together with theorems checking the specification's claims
against them.

Conventions:
- SQL `NULL` is `Option.none`; nullable columns carry `Option` values.
- A session query is a list search in insertion order (`.first()` is
  `List.find?`); SQLAlchemy turns a `== None` filter into `IS NULL`,
  which the `Option`-valued comparison reproduces.
- A `commit` that a schema constraint rejects (the unique columns on
  `users`, the composite primary key of the association table) is
  modelled as an explicit `integrityError` at the commit point.
- Timestamp columns are omitted: no claim depends on them.
-/

namespace UsersGroups

/-- A row of the `users` table (class `User`, models.py lines 267-287).
`user_id` (the platform-external id) and `username` are nullable columns
declared `unique=True`; `is_activated` is non-null with default false. -/
structure User where
  id : Nat
  user_id : Option String
  username : Option String
  first_name : Option String
  last_name : Option String
  is_activated : Bool
deriving DecidableEq

/-- A row of the `groups` table (class `Group`, models.py lines 30-51).
`name` is declared `nullable=False, index=True` — with no unique
constraint.  `owner_id` is a nullable foreign key to `users.id`. -/
structure Group where
  id : Nat
  name : String
  description : Option String
  owner_id : Option Nat
deriving DecidableEq

/-- The persisted store: the two tables, the `group_user_association`
rows — (group_id, user_id) pairs forming a composite primary key — and
the autoincrement counters for the two integer primary keys. -/
structure DB where
  users : List User
  groups : List Group
  memberships : List (Nat × Nat)
  nextUserPk : Nat
  nextGroupPk : Nat
deriving DecidableEq

/-- A freshly initialised store (autoincrement counters start at 1). -/
def emptyDB : DB := ⟨[], [], [], 1, 1⟩

/-- `session.query(User).filter(User.user_id == x).first()`; a `None`
argument compares as SQL `IS NULL`. -/
def userByUserId (db : DB) (uid : Option String) : Option User :=
  db.users.find? (fun u => u.user_id == uid)

/-- `session.query(User).filter(User.username == x).first()`. -/
def userByUsername (db : DB) (uname : Option String) : Option User :=
  db.users.find? (fun u => u.username == uname)

/-- `session.query(Group).filter(Group.id == gid).first()`. -/
def groupById (db : DB) (gid : Nat) : Option Group :=
  db.groups.find? (fun g => g.id == gid)

/-- Python truthiness of an optional string (`if owner_user_id:`,
`if not user_id`): `None` and the empty string are falsy. -/
def pyTruthy : Option String → Bool
  | none => false
  | some s => !s.isEmpty

/-- Exceptions escaping an operation: the `ValueError`s raised by the
model methods, and an `IntegrityError` raised at commit time by a
schema constraint. -/
inductive DbErr where
  | valueError (msg : String)
  | integrityError
deriving DecidableEq

/-- models.py `User.create` (lines 289-316): validates that not both
identity fields are empty, inserts the row, and commits.  The commit
enforces the unique constraints declared on `users.user_id` and
`users.username` (a duplicate non-null value raises `IntegrityError`);
there is no application-level duplicate pre-check. -/
def User.create (db : DB) (uid uname : Option String) (is_activated : Bool)
    (first_name last_name : Option String) : Except DbErr (User × DB) :=
  if !pyTruthy uid && !pyTruthy uname then
    .error (.valueError "Cannot create user with both user_id and username empty")
  else
    if (uid.isSome && (userByUserId db uid).isSome) ||
       (uname.isSome && (userByUsername db uname).isSome) then
      .error .integrityError
    else
      .ok (⟨db.nextUserPk, uid, uname, first_name, last_name, is_activated⟩,
           { db with
              users := db.users ++ [⟨db.nextUserPk, uid, uname, first_name, last_name, is_activated⟩],
              nextUserPk := db.nextUserPk + 1 })

/-- The dict returned by models.py `Group.create` (lines 98-104); its
`created_at` entry is a timestamp and is not modelled as a field. -/
structure GroupCreateResult where
  id : Nat
  name : String
  description : Option String
  added_users_count : Nat
deriving DecidableEq

/-- The keys of the dict literal that models.py `Group.create` returns
(lines 98-104). -/
def groupCreateResultKeys : List String :=
  ["id", "name", "description", "added_users_count", "created_at"]

/-- `user.is_activated = True` on the user row with primary key `i`. -/
def activateUser (db : DB) (i : Nat) : DB :=
  { db with users := db.users.map (fun u => if u.id = i then { u with is_activated := true } else u) }

/-- The member-attachment loop of models.py `Group.create` (lines
84-93): resolve each username; a hit appends an association row,
activates the user and increments the counter; a miss is only logged. -/
def addMembersLoop (gid : Nat) : List String → DB → DB × Nat
  | [], db => (db, 0)
  | uname :: rest, db =>
    match userByUsername db (some uname) with
    | some u =>
      let db1 := activateUser { db with memberships := db.memberships ++ [(gid, u.id)] } u.id
      let r := addMembersLoop gid rest db1
      (r.1, r.2 + 1)
    | none => addMembersLoop gid rest db

/-- Owner resolution in models.py `Group.create` (lines 71-76):
`if owner_user_id:` then a lookup that raises `ValueError` on a miss. -/
def findOwner (db : DB) (owner_user_id : Option String) : Except DbErr (Option User) :=
  if pyTruthy owner_user_id then
    match userByUserId db owner_user_id with
    | none =>
      .error (.valueError ("Owner with user_id \x27" ++ owner_user_id.getD "" ++ "\x27 not found"))
    | some u => .ok (some u)
  else .ok none

/-- The store after models.py `Group.create` has added the new group
row and flushed (lines 78-82): the fresh primary key is the counter. -/
def groupInserted (db : DB) (name : String) (description : Option String)
    (owner : Option User) : DB :=
  { db with
     groups := db.groups ++ [⟨db.nextGroupPk, name, description, owner.map (fun u => u.id)⟩],
     nextGroupPk := db.nextGroupPk + 1 }

/-- The store and counter produced by the insert plus member loop of
models.py `Group.create`, before the final commit. -/
def groupCreateStep (db : DB) (name : String) (usernames : Option (List String))
    (description : Option String) (owner : Option User) : DB × Nat :=
  addMembersLoop db.nextGroupPk (usernames.getD []) (groupInserted db name description owner)

/-- models.py `Group.create` (lines 53-104).  The name collision is only
a pre-check followed by a `ValueError` (the `name` column carries no
unique constraint); the final commit enforces the association table's
composite primary key, so duplicate association rows accumulated by the
loop raise `IntegrityError`. -/
def Group.create (db : DB) (name : String) (usernames : Option (List String))
    (description : Option String) (owner_user_id : Option String) :
    Except DbErr (GroupCreateResult × DB) :=
  if (db.groups.find? (fun g => g.name == name)).isSome then
    .error (.valueError ("Group with name \x27" ++ name ++ "\x27 already exists"))
  else
    match findOwner db owner_user_id with
    | .error e => .error e
    | .ok owner =>
      if (groupCreateStep db name usernames description owner).1.memberships.Nodup then
        .ok (⟨db.nextGroupPk, name, description,
              (groupCreateStep db name usernames description owner).2⟩,
             (groupCreateStep db name usernames description owner).1)
      else
        .error .integrityError

/-- models.py `Group.delete_by_id` (lines 106-116): deleting the group
also deletes its rows in the secondary association table. -/
def Group.delete_by_id (db : DB) (gid : Nat) : Bool × DB :=
  match groupById db gid with
  | none => (false, db)
  | some _ =>
    (true, { db with groups := db.groups.filter (fun g => g.id != gid),
                     memberships := db.memberships.filter (fun e => e.1 != gid) })

/-- models.py `Group.add_user` (lines 118-138): resolve group and user,
report `False` if either is missing, succeed as a no-op if the user is
already a member, otherwise insert the association row. -/
def Group.add_user (db : DB) (gid : Nat) (uid : Option String) : Bool × DB :=
  match groupById db gid with
  | none => (false, db)
  | some g =>
    match userByUserId db uid with
    | none => (false, db)
    | some u =>
      if (g.id, u.id) ∈ db.memberships then (true, db)
      else (true, { db with memberships := db.memberships ++ [(g.id, u.id)] })

/-- models.py `Group.remove_user` (lines 140-160): resolve group and
user, report `False` if either — or the membership edge — is missing,
otherwise delete the association row. -/
def Group.remove_user (db : DB) (gid : Nat) (uid : Option String) : Bool × DB :=
  match groupById db gid with
  | none => (false, db)
  | some g =>
    match userByUserId db uid with
    | none => (false, db)
    | some u =>
      if (g.id, u.id) ∈ db.memberships then
        (true, { db with memberships := db.memberships.filter (fun e => e != (g.id, u.id)) })
      else (false, db)

/-- `user.is_activated = False` or `True` on every row with the given
username — the `.update()` queries in main.py and the activate /
deactivate tools. -/
def setActivatedByUsername (db : DB) (uname : Option String) (b : Bool) : DB :=
  { db with users := db.users.map (fun v =>
      if v.username == uname then { v with is_activated := b } else v) }

/-- The `group.owner` relationship: the user row that the nullable
foreign key `owner_id` points at, or `none`. -/
def groupOwner (db : DB) (g : Group) : Option User :=
  g.owner_id.bind (fun oid => db.users.find? (fun u => u.id == oid))

/-- main.py `check_teacher_owner_of_group` (lines 318-327).  A missing
group yields `some false`; an owner whose external id differs from the
caller's yields `some false`; a match yields `some true`.  The result
`none` models the `AttributeError` raised by `group.owner.user_id`
when the group's `owner` relationship resolves to `None`. -/
def check_teacher_owner_of_group (db : DB) (group_id : Nat) (teacher_user_id : String) :
    Option Bool :=
  match groupById db group_id with
  | none => some false
  | some g =>
    match groupOwner db g with
    | none => none
    | some owner => if owner.user_id == some teacher_user_id then some true else some false

/-- The value a tool of main.py returns, one constructor per distinct
return statement reachable in the modelled tools. -/
inductive ToolResult where
  | groupNotOwned (gid : Nat) (tuid : String)
  | groupDeleted (gid : Nat)
  | groupNotFound (gid : Nat)
  | userNotFoundByUsername (username : String)
  | userAddedToGroup (username : String) (gid : Nat)
  | userRemovedFromGroup (username : String) (gid : Nat)
  | removeUserFailed (username : String) (gid : Nat)
  | groupCreated (name : String) (gid : Nat) (counts : Option (Nat × Bool))
  | errorCreatingGroup (msg : String)
  | userCreated (username : String)
  | errorRegisteringUser
  | databaseError (msg : String)
deriving DecidableEq

/-- The message string each `ToolResult` renders to — the f-strings of
the corresponding return statements in main.py.  `groupCreated` carries
the optional added-count line and warning line; `databaseError`
abstracts the interpolated exception text as its payload. -/
def render : ToolResult → String
  | .groupNotOwned gid tuid =>
      "Group with ID " ++ toString gid ++ " is not owned by " ++ tuid
  | .groupDeleted gid => "Group with ID " ++ toString gid ++ " deleted successfully"
  | .groupNotFound gid => "Group with ID " ++ toString gid ++ " not found"
  | .userNotFoundByUsername uname => "User with username " ++ uname ++ " not found"
  | .userAddedToGroup uname gid =>
      "User " ++ uname ++ " added to group " ++ toString gid ++ " successfully."
  | .userRemovedFromGroup uname gid =>
      "User " ++ uname ++ " removed from group " ++ toString gid ++ " successfully"
  | .removeUserFailed uname gid =>
      "Failed to remove user " ++ uname ++ " from group " ++ toString gid ++
        ". Check if both exist and user is in the group."
  | .groupCreated name gid counts =>
      "Group \x27" ++ name ++ "\x27 created successfully with ID: " ++ toString gid ++
        (match counts with
         | none => ""
         | some (n, warn) =>
             "\nAdded " ++ toString n ++ " users to the group" ++
               (if warn then "\nWarning: Not all students were added to the group" else ""))
  | .errorCreatingGroup msg => "Error creating group: " ++ msg
  | .userCreated uname => "User " ++ uname ++ " created successfully"
  | .errorRegisteringUser => "Error registering user: "
  | .databaseError msg => "Database error: " ++ msg

/-- main.py `create_user` (lines 249-275): create and commit the user
locally, then POST to the registry; a non-200 registry status only
changes the returned message — the committed row is left in place.
The registry's HTTP status is an input; an exception from
`User.create` propagates out of the tool. -/
def create_user (db : DB) (user_id username role : String) (is_activated : Bool)
    (registryStatus : Nat) : Except DbErr (ToolResult × DB) :=
  match User.create db (some user_id) (some username) is_activated none none with
  | .error e => .error e
  | .ok (_, db1) =>
    if registryStatus != 200 then .ok (.errorRegisteringUser, db1)
    else .ok (.userCreated username, db1)

/-- main.py `create_group` (lines 278-315): wraps `Group.create`,
turning a `ValueError` into an error message and any other exception
into a database-error message; on success the reply optionally reports
the added-users count and a warning when not every requested username
was added. -/
def create_group (db : DB) (name : String) (description : Option String)
    (teacher_user_id : String) (students_usernames : Option (List String)) :
    ToolResult × DB :=
  match Group.create db name students_usernames description (some teacher_user_id) with
  | .error (.valueError msg) => (.errorCreatingGroup msg, db)
  | .error .integrityError => (.databaseError "IntegrityError", db)
  | .ok (res, db1) =>
    let counts : Option (Nat × Bool) :=
      match students_usernames with
      | none => none
      | some l =>
        if l.isEmpty then none
        else some (res.added_users_count, decide (res.added_users_count < l.length))
    (.groupCreated name res.id counts, db1)

/-- main.py `delete_group` (lines 330-350): ownership check first, then
`Group.delete_by_id`; an `AttributeError` escaping the check is caught
by the handler and reported as a database error. -/
def delete_group (db : DB) (group_id : Nat) (teacher_user_id : String) : ToolResult × DB :=
  match check_teacher_owner_of_group db group_id teacher_user_id with
  | none => (.databaseError "AttributeError", db)
  | some false => (.groupNotOwned group_id teacher_user_id, db)
  | some true =>
    match Group.delete_by_id db group_id with
    | (true, db1) => (.groupDeleted group_id, db1)
    | (false, db1) => (.groupNotFound group_id, db1)

/-- main.py `add_user_to_group` (lines 353-379): ownership check, then
username resolution; then `Group.add_user` is called and its boolean
result discarded, and success is reported unconditionally.  The
`update({"is_activated": True})` issued afterwards (lines 372-374) is
never committed: the only commit in this flow is the one inside
`Group.add_user`, which precedes the update, and leaving the
`with SessionLocal()` block closes the session and rolls the open
transaction back.  The durable post-state is therefore exactly what
`Group.add_user` left — the activation does not persist and is not part
of the returned store. -/
def add_user_to_group (db : DB) (teacher_user_id : String) (group_id : Nat)
    (username : String) : ToolResult × DB :=
  match check_teacher_owner_of_group db group_id teacher_user_id with
  | none => (.databaseError "AttributeError", db)
  | some false => (.groupNotOwned group_id teacher_user_id, db)
  | some true =>
    match userByUsername db (some username) with
    | none => (.userNotFoundByUsername username, db)
    | some u =>
      (.userAddedToGroup username group_id, (Group.add_user db group_id u.user_id).2)

/-- main.py `remove_user_from_group` (lines 415-446).  After the
ownership check the body runs
`Group.remove_user(group_id, username, session, teacher_user_id)` —
four arguments against the three-parameter classmethod of models.py —
so the call raises `TypeError` before touching the store; the generic
handler catches it and returns a database-error message, leaving the
store unchanged and making the removal and deactivation branches below
the call unreachable. -/
def remove_user_from_group (db : DB) (teacher_user_id : String) (group_id : Nat)
    (username : String) : ToolResult × DB :=
  match check_teacher_owner_of_group db group_id teacher_user_id with
  | none => (.databaseError "AttributeError", db)
  | some false => (.groupNotOwned group_id teacher_user_id, db)
  | some true => (.databaseError "TypeError", db)

/-- The uniqueness guarantees declared by the schema itself in
models.py: primary keys on `users.id`, `groups.id` and on the
association pair, and `unique=True` on `users.user_id` and
`users.username` (non-null values pairwise distinct).  `groups.name`
(line 36) carries no unique constraint, so no clause constrains it. -/
def schemaConstraintsOk (db : DB) : Bool :=
  decide (db.users.map (fun u => u.id)).Nodup &&
  decide (db.users.filterMap (fun u => u.user_id)).Nodup &&
  decide (db.users.filterMap (fun u => u.username)).Nodup &&
  decide (db.groups.map (fun g => g.id)).Nodup &&
  decide db.memberships.Nodup

/-- No two group rows share a name. -/
def groupNamesUnique (db : DB) : Bool :=
  decide (db.groups.map (fun g => g.name)).Nodup

/-- `/set_user_id_for_username` (main.py lines 58-69): rebind the
`user_id` column of the rows with the given username. -/
def setUserIdForUsername (db : DB) (uname : Option String) (uid : Option String) : DB :=
  { db with users := db.users.map (fun v =>
      if v.username == uname then { v with user_id := uid } else v) }

/-- Store states reachable from a fresh store through the mutating
primitives that the main.py surface composes: user creation, group
creation, group deletion, membership insertion and removal, activation
updates, and the user-id rebinding route.  Every state a sequence of
main.py tool calls can produce is of this form. -/
inductive Reachable : DB → Prop where
  | empty : Reachable emptyDB
  | user_create (db : DB) (uid uname : Option String) (act : Bool) (f l : Option String)
      (u : User) (db1 : DB) :
      Reachable db → User.create db uid uname act f l = .ok (u, db1) → Reachable db1
  | group_create (db : DB) (name : String) (us : Option (List String))
      (d o : Option String) (r : GroupCreateResult) (db1 : DB) :
      Reachable db → Group.create db name us d o = .ok (r, db1) → Reachable db1
  | group_delete (db : DB) (gid : Nat) :
      Reachable db → Reachable (Group.delete_by_id db gid).2
  | group_add (db : DB) (gid : Nat) (uid : Option String) :
      Reachable db → Reachable (Group.add_user db gid uid).2
  | group_remove (db : DB) (gid : Nat) (uid : Option String) :
      Reachable db → Reachable (Group.remove_user db gid uid).2
  | set_activated (db : DB) (uname : Option String) (b : Bool) :
      Reachable db → Reachable (setActivatedByUsername db uname b)
  | set_user_id (db : DB) (uname uid : Option String) :
      Reachable db → Reachable (setUserIdForUsername db uname uid)

/-! ## Concrete stores used by counterexamples and witnesses -/

/-- Two distinct group rows sharing the name "G". -/
def dbDupNames : DB := ⟨[], [⟨1, "G", none, none⟩, ⟨2, "G", none, none⟩], [], 1, 3⟩

/-- One group whose nullable `owner_id` is unset. -/
def dbNullOwner : DB := ⟨[], [⟨1, "G", none, none⟩], [], 1, 2⟩

/-- A teacher owning group 1. -/
def dbOwned : DB :=
  ⟨[⟨1, some "t", some "teach", none, none, true⟩], [⟨1, "G", none, some 1⟩], [], 2, 2⟩

/-- The store `create_user` leaves behind starting from an empty store. -/
def dbAfterCreateUser : DB := ⟨[⟨1, some "u1", some "alice", none, none, true⟩], [], [], 2, 1⟩

/-- A teacher owning group 1, with the activated student alice as the
group's only member and the group as alice's only membership. -/
def dbTeacherAlice : DB :=
  ⟨[⟨1, some "t", some "teach", none, none, true⟩,
    ⟨2, some "a1", some "alice", none, none, true⟩],
   [⟨1, "G", none, some 1⟩], [(1, 2)], 3, 2⟩

/-! ## Claims -/

/-- C1, counterexample: the schema does not by itself force group names
apart — a store holding two distinct group rows that share the name "G"
satisfies every constraint the schema declares, because `groups.name`
(models.py line 36) carries `nullable=False, index=True` but no
`unique=True`. -/
theorem C1_counterexample_schema_allows_duplicate_group_names :
    schemaConstraintsOk dbDupNames = true ∧ groupNamesUnique dbDupNames = false := by
  constructor <;> decide

/-- C2, code bug: `create_user` commits the local user row and then
contacts the registry; on a non-2xx registry status it only returns an
error message — the committed row is not rolled back, so a store state
with a user whose registration failed is reachable, contrary to the
spec's rollback requirement. -/
theorem C2_code_bug_no_rollback_on_registry_failure :
    create_user emptyDB "u1" "alice" "student" true 500 =
      .ok (.errorRegisteringUser, dbAfterCreateUser) ∧
    userByUserId dbAfterCreateUser (some "u1") =
      some ⟨1, some "u1", some "alice", none, none, true⟩ := by
  exact ⟨rfl, by decide⟩

/-- C3, code bug: in the teacher-scoped flow a removal that the spec
says should succeed and deactivate the now-groupless user instead hits
the arity-mismatched `Group.remove_user` call, whose `TypeError` the
handler reports as a database error; the store — alice's membership and
activation included — is unchanged. -/
theorem C3_code_bug_remove_flow_type_error :
    check_teacher_owner_of_group dbTeacherAlice 1 "t" = some true ∧
    userByUsername dbTeacherAlice (some "alice") =
      some ⟨2, some "a1", some "alice", none, none, true⟩ ∧
    (1, 2) ∈ dbTeacherAlice.memberships ∧
    remove_user_from_group dbTeacherAlice "t" 1 "alice" =
      (.databaseError "TypeError", dbTeacherAlice) := by
  refine ⟨by decide, by decide, by decide, by decide⟩

/-- C4: each of `delete_group`, `add_user_to_group` and
`remove_user_from_group` runs the centralized ownership check first;
when the check reports `false` for an existing group, each aborts with
the not-owned reply, whose rendered message differs from the not-found
reply's, and leaves the store unchanged. -/
theorem C4_ownership_check_gates_mutations (db : DB) (gid : Nat) (tuid username : String)
    (hex : groupById db gid ≠ none)
    (hchk : check_teacher_owner_of_group db gid tuid = some false) :
    delete_group db gid tuid = (.groupNotOwned gid tuid, db) ∧
    add_user_to_group db tuid gid username = (.groupNotOwned gid tuid, db) ∧
    remove_user_from_group db tuid gid username = (.groupNotOwned gid tuid, db) ∧
    render (.groupNotOwned gid tuid) ≠ render (.groupNotFound gid) := by
  refine ⟨by simp [delete_group, hchk], by simp [add_user_to_group, hchk],
          by simp [remove_user_from_group, hchk], fun hcontra => ?_⟩
  have hlen := congrArg String.length hcontra
  have h14 : ("Group with ID " : String).length = 14 := rfl
  have h17 : (" is not owned by " : String).length = 17 := rfl
  have h10 : (" not found" : String).length = 10 := rfl
  simp only [render, String.length_append, h14, h17, h10] at hlen
  omega

/-- C4 witness: a caller who is not the stored owner of the existing
group 1 is refused by all three mutating tools with the not-owned
reply, and that reply renders differently from not-found. -/
theorem C4_witness :
    delete_group dbOwned 1 "x" = (.groupNotOwned 1 "x", dbOwned) ∧
    add_user_to_group dbOwned "x" 1 "alice" = (.groupNotOwned 1 "x", dbOwned) ∧
    remove_user_from_group dbOwned "x" 1 "alice" = (.groupNotOwned 1 "x", dbOwned) ∧
    render (.groupNotOwned 1 "x") ≠ render (.groupNotFound 1) :=
  C4_ownership_check_gates_mutations dbOwned 1 "x" "alice" (by decide) (by decide)

/-- C5, counterexample: the null-owner state is reachable — creating a
group with a falsy owner argument stores `owner_id = NULL` — and on it
the ownership check raises (`group.owner.user_id` on `None`) instead of
returning a boolean, refuting the claim that it never raises on any
reachable store state. -/
theorem C5_counterexample_check_raises_on_null_owner :
    Group.create emptyDB "G" none none (some "") = .ok (⟨1, "G", none, 0⟩, dbNullOwner) ∧
    check_teacher_owner_of_group dbNullOwner 1 "t" = none := by
  exact ⟨rfl, by decide⟩

/-- C5 amended: the ownership check returns `false` when the group is
missing; when the group exists and its owner reference resolves, it
returns exactly whether the stored owner's external id equals the
caller's; but when the group exists with an unresolvable (unset or
dangling) owner reference it raises `AttributeError` instead of
returning. -/
theorem C5_amended_isOwner_behaviour (db : DB) (gid : Nat) (tuid : String) :
    (groupById db gid = none → check_teacher_owner_of_group db gid tuid = some false) ∧
    (∀ g u, groupById db gid = some g → groupOwner db g = some u →
      check_teacher_owner_of_group db gid tuid = some (u.user_id == some tuid)) ∧
    (∀ g, groupById db gid = some g → groupOwner db g = none →
      check_teacher_owner_of_group db gid tuid = none) := by
  refine ⟨fun h => by simp [check_teacher_owner_of_group, h],
          fun g u hg hu => ?_,
          fun g hg hu => by simp [check_teacher_owner_of_group, hg, hu]⟩
  simp only [check_teacher_owner_of_group, hg, hu]
  cases hb : u.user_id == some tuid <;> simp [hb]

/-- C5 amended witness: the three behaviours at concrete stores — a
missing group, a matching owner, and an unset owner reference. -/
theorem C5_amended_witness :
    check_teacher_owner_of_group emptyDB 1 "t" = some false ∧
    check_teacher_owner_of_group dbOwned 1 "t" = some true ∧
    check_teacher_owner_of_group dbNullOwner 1 "t" = none := by
  refine ⟨(C5_amended_isOwner_behaviour emptyDB 1 "t").1 (by decide), ?_,
          (C5_amended_isOwner_behaviour dbNullOwner 1 "t").2.2
            ⟨1, "G", none, none⟩ (by decide) (by decide)⟩
  exact ((C5_amended_isOwner_behaviour dbOwned 1 "t").2.1
    ⟨1, "G", none, some 1⟩ ⟨1, some "t", some "teach", none, none, true⟩
    (by decide) (by decide)).trans (by decide)

/-- C7: on any store already holding a group named `name`, group
creation fails with the already-exists `ValueError` whatever the other
arguments are — the pre-check fires before owner resolution and member
attachment — and the tool-level wrapper reports the conflict leaving
the store unchanged. -/
theorem C7_duplicate_name_always_conflicts (db : DB) (name : String)
    (usernames : Option (List String)) (description owner_user_id : Option String)
    (g0 : Group) (hg0 : g0 ∈ db.groups) (hname : g0.name = name) :
    Group.create db name usernames description owner_user_id =
      .error (.valueError ("Group with name \x27" ++ name ++ "\x27 already exists")) ∧
    ∀ tuid descr2, create_group db name descr2 tuid usernames =
      (.errorCreatingGroup ("Group with name \x27" ++ name ++ "\x27 already exists"), db) := by
  have hfind : (db.groups.find? (fun g => g.name == name)).isSome = true := by
    rw [List.find?_isSome]
    exact ⟨g0, hg0, by simp [hname]⟩
  constructor
  · simp [Group.create, hfind]
  · intro tuid descr2
    simp [create_group, Group.create, hfind]

/-- C7 witness: re-creating the existing group name "G" fails with the
conflict error at both layers and leaves the store untouched. -/
theorem C7_witness :
    Group.create dbOwned "G" (some ["alice"]) (some "d") (some "z") =
      .error (.valueError ("Group with name \x27" ++ "G" ++ "\x27 already exists")) ∧
    create_group dbOwned "G" none "t" (some ["alice"]) =
      (.errorCreatingGroup ("Group with name \x27" ++ "G" ++ "\x27 already exists"), dbOwned) :=
  ⟨(C7_duplicate_name_always_conflicts dbOwned "G" (some ["alice"]) (some "d") (some "z")
      ⟨1, "G", none, some 1⟩ (by decide) rfl).1,
   (C7_duplicate_name_always_conflicts dbOwned "G" (some ["alice"]) none (some "t")
      ⟨1, "G", none, some 1⟩ (by decide) rfl).2 "t" none⟩

/-- A teacher owning group 1 whose member bob (not yet activated) is
already on the membership list. -/
def dbBob : DB :=
  ⟨[⟨1, some "t", some "teach", none, none, true⟩,
    ⟨2, some "b1", some "bob", none, none, false⟩],
   [⟨1, "G", none, some 1⟩], [(1, 2)], 3, 2⟩

/-- Queries only read the table they target: updating the association
rows does not change group resolution. -/
theorem groupById_mem_update (db : DB) (m : List (Nat × Nat)) (gid : Nat) :
    groupById { db with memberships := m } gid = groupById db gid := rfl

/-- Updating the association rows does not change user resolution. -/
theorem userByUserId_mem_update (db : DB) (m : List (Nat × Nat)) (uid : Option String) :
    userByUserId { db with memberships := m } uid = userByUserId db uid := rfl

/-- A list without duplicates counts a member exactly once. -/
theorem count_one_of_nodup_mem {α : Type} [BEq α] [LawfulBEq α] {l : List α} {a : α}
    (hnd : l.Nodup) (hmem : a ∈ l) : l.count a = 1 := by
  induction l with
  | nil => cases hmem
  | cons b t ih =>
    rcases List.mem_cons.mp hmem with h | h
    · subst h
      have hnotin : a ∉ t := (List.nodup_cons.mp hnd).1
      simp [List.count_cons, List.count_eq_zero.mpr hnotin]
    · have hne : a ≠ b := by
        rintro rfl
        exact (List.nodup_cons.mp hnd).1 h
      simp [List.count_cons, ih (List.nodup_cons.mp hnd).2 h, hne]

/-- C8: when the group and the user both resolve, `add_user` reports
success, a repeated call reports success again without changing the
store, and the membership relation holds the edge exactly once (given
the composite-key invariant that association rows are distinct). -/
theorem C8_addMember_idempotent (db : DB) (gid : Nat) (uid : Option String)
    (hnd : db.memberships.Nodup)
    (g : Group) (hg : groupById db gid = some g)
    (u : User) (hu : userByUserId db uid = some u) :
    (Group.add_user db gid uid).1 = true ∧
    Group.add_user (Group.add_user db gid uid).2 gid uid =
      (true, (Group.add_user db gid uid).2) ∧
    ((Group.add_user db gid uid).2).memberships.count (g.id, u.id) = 1 := by
  by_cases hmem : (g.id, u.id) ∈ db.memberships
  · refine ⟨by simp [Group.add_user, hg, hu, hmem], by simp [Group.add_user, hg, hu, hmem], ?_⟩
    simp only [Group.add_user, hg, hu, if_pos hmem]
    exact count_one_of_nodup_mem hnd hmem
  · have hstep : (Group.add_user db gid uid).2 =
        { db with memberships := db.memberships ++ [(g.id, u.id)] } := by
      simp [Group.add_user, hg, hu, hmem]
    refine ⟨by simp [Group.add_user, hg, hu, hmem], ?_, ?_⟩
    · rw [hstep]
      have hmem2 : (g.id, u.id) ∈ db.memberships ++ [(g.id, u.id)] := by simp
      simp [Group.add_user, groupById_mem_update, userByUserId_mem_update, hg, hu, hmem2]
    · rw [hstep]
      simp [List.count_append, List.count_eq_zero.mpr hmem]

/-- C8 witness: adding the resolvable user "b1" to the (empty-membership)
owned group twice succeeds both times and yields exactly one edge. -/
theorem C8_witness :
    (Group.add_user dbOwned 1 (some "t")).1 = true ∧
    Group.add_user (Group.add_user dbOwned 1 (some "t")).2 1 (some "t") =
      (true, (Group.add_user dbOwned 1 (some "t")).2) ∧
    ((Group.add_user dbOwned 1 (some "t")).2).memberships.count (1, 1) = 1 :=
  C8_addMember_idempotent dbOwned 1 (some "t") (by decide)
    ⟨1, "G", none, some 1⟩ (by decide) ⟨1, some "t", some "teach", none, none, true⟩ (by decide)

/-- C9: `remove_user` reports failure, leaving the store as it was,
whenever the group, or the user, or the membership edge is missing;
when all three are present it deletes the edge; consequently a second
removal of the same pair right after a successful one reports failure
and changes nothing. -/
theorem C9_removeMember_second_call_absent (db : DB) (gid : Nat) (uid : Option String) :
    ((groupById db gid = none ∨ userByUserId db uid = none ∨
        (∀ g u, groupById db gid = some g → userByUserId db uid = some u →
          (g.id, u.id) ∉ db.memberships)) →
      Group.remove_user db gid uid = (false, db)) ∧
    (∀ g u, groupById db gid = some g → userByUserId db uid = some u →
        (g.id, u.id) ∈ db.memberships →
      Group.remove_user db gid uid =
        (true, { db with memberships := db.memberships.filter (fun e => e != (g.id, u.id)) }) ∧
      (g.id, u.id) ∉ ((Group.remove_user db gid uid).2).memberships) ∧
    (∀ db1, Group.remove_user db gid uid = (true, db1) →
      Group.remove_user db1 gid uid = (false, db1)) := by
  refine ⟨?_, ?_, ?_⟩
  · rintro (h | h | h)
    · simp [Group.remove_user, h]
    · cases hg : groupById db gid with
      | none => simp [Group.remove_user, hg]
      | some g => simp [Group.remove_user, hg, h]
    · cases hg : groupById db gid with
      | none => simp [Group.remove_user, hg]
      | some g =>
        cases hu : userByUserId db uid with
        | none => simp [Group.remove_user, hg, hu]
        | some u => simp [Group.remove_user, hg, hu, h g u hg hu]
  · intro g u hg hu hmem
    refine ⟨by simp [Group.remove_user, hg, hu, hmem], ?_⟩
    simp [Group.remove_user, hg, hu, hmem]
  · intro db1 h
    cases hg : groupById db gid with
    | none =>
      simp only [Group.remove_user, hg] at h
      exact absurd (congrArg Prod.fst h) (by simp)
    | some g =>
      cases hu : userByUserId db uid with
      | none =>
        simp only [Group.remove_user, hg, hu] at h
        exact absurd (congrArg Prod.fst h) (by simp)
      | some u =>
        by_cases hmem : (g.id, u.id) ∈ db.memberships
        · simp only [Group.remove_user, hg, hu, if_pos hmem] at h
          have hdb1 : db1 =
              { db with memberships := db.memberships.filter (fun e => e != (g.id, u.id)) } :=
            (congrArg Prod.snd h).symm
          subst hdb1
          have hnotin : (g.id, u.id) ∉ db.memberships.filter (fun e => e != (g.id, u.id)) := by
            simp [List.mem_filter]
          simp [Group.remove_user, groupById_mem_update, userByUserId_mem_update, hg, hu, hnotin]
        · simp only [Group.remove_user, hg, hu, if_neg hmem] at h
          exact absurd (congrArg Prod.fst h) (by simp)

/-- C9 witness: removing bob from group 1 once succeeds and deletes the
edge; the immediately repeated call on the same pair reports absence. -/
theorem C9_witness :
    (Group.remove_user dbBob 1 (some "b1") =
      (true, { dbBob with memberships := dbBob.memberships.filter (fun e => e != (1, 2)) }) ∧
      (1, 2) ∉ ((Group.remove_user dbBob 1 (some "b1")).2).memberships) ∧
    Group.remove_user (Group.remove_user dbBob 1 (some "b1")).2 1 (some "b1") =
      (false, (Group.remove_user dbBob 1 (some "b1")).2) :=
  ⟨(C9_removeMember_second_call_absent dbBob 1 (some "b1")).2.1
      ⟨1, "G", none, some 1⟩ ⟨2, some "b1", some "bob", none, none, false⟩
      (by decide) (by decide) (by decide),
   (C9_removeMember_second_call_absent dbBob 1 (some "b1")).2.2
      (Group.remove_user dbBob 1 (some "b1")).2 (by rfl)⟩

/-- `add_user` never touches the `users` table (its only write is the
association-row insert it commits). -/
theorem Group.add_user_users (db : DB) (gid : Nat) (uid : Option String) :
    ((Group.add_user db gid uid).2).users = db.users := by
  unfold Group.add_user
  cases groupById db gid with
  | none => rfl
  | some g =>
    cases userByUserId db uid with
    | none => rfl
    | some u => by_cases h : (g.id, u.id) ∈ db.memberships <;> simp [h]

/-- C10, counterexample: bob is already a member of the owned group, the
check passes and the username resolves, and the tool reports success —
yet in the durable post-state bob's `is_activated` is still false and
the store is entirely unchanged: the `is_activated` update is never
committed and the session rolls it back on close. -/
theorem C10_counterexample_activation_not_persisted :
    (add_user_to_group dbBob "t" 1 "bob").1 = .userAddedToGroup "bob" 1 ∧
    (add_user_to_group dbBob "t" 1 "bob").2 = dbBob ∧
    userByUsername dbBob (some "bob") =
      some ⟨2, some "b1", some "bob", none, none, false⟩ := by
  exact ⟨by decide, by decide, by decide⟩

/-- C10 amended: once the ownership check passes and the username
resolves, `add_user_to_group` reports success unconditionally, never
inspecting `Group.add_user`'s boolean result; but the activation update
it issues is uncommitted and rolled back at session close, so the
durable store is exactly what `Group.add_user` left — no user row
changes at all, and when the user was already a member (no edge
inserted) the whole store is unchanged despite the success report. -/
theorem C10_amended_success_without_persisted_activation (db : DB) (tuid : String)
    (gid : Nat) (username : String) (u : User)
    (hchk : check_teacher_owner_of_group db gid tuid = some true)
    (hu : userByUsername db (some username) = some u) :
    (add_user_to_group db tuid gid username).1 = .userAddedToGroup username gid ∧
    (add_user_to_group db tuid gid username).2 = (Group.add_user db gid u.user_id).2 ∧
    (add_user_to_group db tuid gid username).2.users = db.users ∧
    ∀ g u2, groupById db gid = some g → userByUserId db u.user_id = some u2 →
      (g.id, u2.id) ∈ db.memberships →
      (add_user_to_group db tuid gid username).2 = db := by
  refine ⟨by simp [add_user_to_group, hchk, hu],
          by simp [add_user_to_group, hchk, hu], ?_, ?_⟩
  · have h2 : (add_user_to_group db tuid gid username).2 =
        (Group.add_user db gid u.user_id).2 := by
      simp [add_user_to_group, hchk, hu]
    rw [h2, Group.add_user_users]
  · intro g u2 hg hu2 hmem
    simp [add_user_to_group, hchk, hu, Group.add_user, hg, hu2, hmem]

/-- C10 amended witness: the already-a-member case — success reported,
store durably unchanged. -/
theorem C10_amended_witness :
    (add_user_to_group dbBob "t" 1 "bob").1 = .userAddedToGroup "bob" 1 ∧
    (add_user_to_group dbBob "t" 1 "bob").2 = dbBob :=
  ⟨(C10_amended_success_without_persisted_activation dbBob "t" 1 "bob"
      ⟨2, some "b1", some "bob", none, none, false⟩ (by decide) (by decide)).1,
   (C10_amended_success_without_persisted_activation dbBob "t" 1 "bob"
      ⟨2, some "b1", some "bob", none, none, false⟩ (by decide) (by decide)).2.2.2
     ⟨1, "G", none, some 1⟩ ⟨2, some "b1", some "bob", none, none, false⟩
     (by decide) (by decide) (by decide)⟩

/-! ## Structural lemmas about the operations -/

/-- The member loop never touches the `groups` table. -/
theorem addMembersLoop_groups (gid : Nat) (l : List String) :
    ∀ db : DB, ((addMembersLoop gid l db).1).groups = db.groups := by
  induction l with
  | nil => intro db; rfl
  | cons a rest ih =>
    intro db
    cases h : userByUsername db (some a) with
    | none => simpa [addMembersLoop, h] using ih db
    | some u =>
      simpa [addMembersLoop, h] using
        ih (activateUser { db with memberships := db.memberships ++ [(gid, u.id)] } u.id)

/-- `add_user` never touches the `groups` table. -/
theorem Group.add_user_groups (db : DB) (gid : Nat) (uid : Option String) :
    ((Group.add_user db gid uid).2).groups = db.groups := by
  unfold Group.add_user
  cases groupById db gid with
  | none => rfl
  | some g =>
    cases userByUserId db uid with
    | none => rfl
    | some u => by_cases h : (g.id, u.id) ∈ db.memberships <;> simp [h]

/-- `remove_user` never touches the `groups` table. -/
theorem Group.remove_user_groups (db : DB) (gid : Nat) (uid : Option String) :
    ((Group.remove_user db gid uid).2).groups = db.groups := by
  unfold Group.remove_user
  cases groupById db gid with
  | none => rfl
  | some g =>
    cases userByUserId db uid with
    | none => rfl
    | some u => by_cases h : (g.id, u.id) ∈ db.memberships <;> simp [h]

/-- Group-name uniqueness as the underlying proposition. -/
theorem groupNamesUnique_iff (db : DB) :
    groupNamesUnique db = true ↔ (db.groups.map (fun g => g.name)).Nodup := by
  simp [groupNamesUnique]

/-- C1 amended, operation-level half: every store state reachable
through the service's mutating primitives keeps group names pairwise
distinct — the guarantee comes from the create-time pre-check, while
the schema itself (see the counterexample) does not enforce it. -/
theorem C1_amended_group_names_unique_in_reachable_states (db : DB) (h : Reachable db) :
    groupNamesUnique db = true := by
  induction h with
  | empty => decide
  | user_create db0 uid uname act f l u db1 hr hok ih =>
    have hgroups : db1.groups = db0.groups := by
      unfold User.create at hok
      split at hok
      · exact Except.noConfusion hok
      · split at hok
        · exact Except.noConfusion hok
        · have hp := Except.ok.inj hok
          injection hp with ha hb
          rw [← hb]
    rw [groupNamesUnique_iff, hgroups, ← groupNamesUnique_iff]
    exact ih
  | group_create db0 name us d o r db1 hr hok ih =>
    unfold Group.create at hok
    cases hfind : db0.groups.find? (fun g => g.name == name) with
    | some g0 =>
      simp only [hfind, Option.isSome_some, if_true] at hok
      exact Except.noConfusion hok
    | none =>
      simp only [hfind, Option.isSome_none, Bool.false_eq_true, if_false] at hok
      cases hfo : findOwner db0 o with
      | error e =>
        simp only [hfo] at hok
        exact Except.noConfusion hok
      | ok owner =>
        simp only [hfo] at hok
        by_cases hnd : ((groupCreateStep db0 name us d owner).1).memberships.Nodup
        · rw [if_pos hnd] at hok
          have hp := Except.ok.inj hok
          injection hp with ha hb
          have hgroups : db1.groups =
              db0.groups ++ [⟨db0.nextGroupPk, name, d, owner.map (fun u => u.id)⟩] := by
            rw [← hb]
            show ((groupCreateStep db0 name us d owner).1).groups = _
            rw [groupCreateStep, addMembersLoop_groups]
            rfl
          have hfresh : name ∉ db0.groups.map (fun g => g.name) := by
            intro hmem
            obtain ⟨g, hg, hgname⟩ := List.mem_map.mp hmem
            have hnp := List.find?_eq_none.mp hfind g hg
            simp [hgname] at hnp
          rw [groupNamesUnique_iff, hgroups, List.map_append]
          rw [groupNamesUnique_iff] at ih
          refine List.nodup_append.mpr ⟨ih, by simp, ?_⟩
          intro a ha ha2
          simp only [List.map_cons, List.map_nil, List.mem_singleton] at ha2
          exact hfresh (ha2 ▸ ha)
        · rw [if_neg hnd] at hok
          exact Except.noConfusion hok
  | group_delete db0 gid hr ih =>
    unfold Group.delete_by_id
    cases groupById db0 gid with
    | none => exact ih
    | some g =>
      rw [groupNamesUnique_iff] at ih ⊢
      exact ih.sublist ((List.filter_sublist db0.groups).map (fun g => g.name))
  | group_add db0 gid uid hr ih =>
    rw [groupNamesUnique_iff, Group.add_user_groups, ← groupNamesUnique_iff]
    exact ih
  | group_remove db0 gid uid hr ih =>
    rw [groupNamesUnique_iff, Group.remove_user_groups, ← groupNamesUnique_iff]
    exact ih
  | set_activated db0 uname b hr ih => exact ih
  | set_user_id db0 uname uid hr ih => exact ih

/-- C1 amended witness: the store reached by creating the group "G" on
a fresh store has pairwise-distinct group names. -/
theorem C1_amended_witness : groupNamesUnique dbNullOwner = true :=
  C1_amended_group_names_unique_in_reachable_states dbNullOwner
    (Reachable.group_create emptyDB "G" none none (some "") ⟨1, "G", none, 0⟩ dbNullOwner
      Reachable.empty (by rfl))

/-! ## The member-attachment loop, characterised -/

/-- Updating the association rows does not change username resolution. -/
theorem userByUsername_mem_update (db : DB) (m : List (Nat × Nat)) (s : Option String) :
    userByUsername { db with memberships := m } s = userByUsername db s := rfl

/-- Username resolution after an activation update finds the same row,
with the flag update applied. -/
theorem userByUsername_activateUser (db : DB) (i : Nat) (s : Option String) :
    userByUsername (activateUser db i) s =
      (userByUsername db s).map
        (fun u => if u.id = i then { u with is_activated := true } else u) := by
  have hp : ((fun u : User => u.username == s) ∘
      (fun u : User => if u.id = i then { u with is_activated := true } else u)) =
      (fun u : User => u.username == s) := by
    funext u
    by_cases h : u.id = i <;> simp [h]
  show (db.users.map
      (fun u => if u.id = i then { u with is_activated := true } else u)).find?
      (fun u => u.username == s) = _
  rw [List.find?_map, hp]
  rfl

/-- The loop's counter counts exactly the entries that resolve against
the store it started from. -/
theorem addMembersLoop_count (gid : Nat) (l : List String) :
    ∀ db : DB, (addMembersLoop gid l db).2 =
      l.countP (fun s => (userByUsername db (some s)).isSome) := by
  induction l with
  | nil => intro db; rfl
  | cons a rest ih =>
    intro db
    cases h : userByUsername db (some a) with
    | none =>
      simp only [addMembersLoop, h, List.countP_cons]
      rw [ih db]
      simp [h]
    | some u =>
      have hpred : (fun s => (userByUsername
            (activateUser { db with memberships := db.memberships ++ [(gid, u.id)] } u.id)
            (some s)).isSome) =
          (fun s => (userByUsername db (some s)).isSome) := by
        funext s
        rw [userByUsername_activateUser, userByUsername_mem_update]
        simp
      simp only [addMembersLoop, h, List.countP_cons]
      rw [ih _, hpred]
      simp [h]

/-- The association rows the member loop inserts: one edge per entry of
the list that resolves, in order. -/
def resolvedEdges (db : DB) (gid : Nat) (l : List String) : List (Nat × Nat) :=
  l.filterMap (fun s => (userByUsername db (some s)).map (fun u => (gid, u.id)))

/-- After the loop, the association table is the old one plus exactly
the edges of the resolving entries. -/
theorem addMembersLoop_memberships (gid : Nat) (l : List String) :
    ∀ db : DB, ((addMembersLoop gid l db).1).memberships =
      db.memberships ++ resolvedEdges db gid l := by
  induction l with
  | nil => intro db; simp [addMembersLoop, resolvedEdges]
  | cons a rest ih =>
    intro db
    cases h : userByUsername db (some a) with
    | none =>
      simp only [addMembersLoop, h]
      rw [ih db]
      simp [resolvedEdges, List.filterMap_cons, h]
    | some u =>
      have hedges : resolvedEdges
          (activateUser { db with memberships := db.memberships ++ [(gid, u.id)] } u.id)
          gid rest = resolvedEdges db gid rest := by
        unfold resolvedEdges
        congr 1
        funext s
        rw [userByUsername_activateUser, userByUsername_mem_update, Option.map_map]
        congr 1
        funext w
        by_cases hw : w.id = u.id <;> simp [hw]
      simp only [addMembersLoop, h]
      rw [ih _, hedges]
      show (db.memberships ++ [(gid, u.id)]) ++ resolvedEdges db gid rest = _
      simp [resolvedEdges, List.filterMap_cons, h, List.append_assoc]

/-- `activateUser` activates the targeted id. -/
theorem activateUser_activates (db : DB) (i : Nat) :
    ∀ v ∈ (activateUser db i).users, v.id = i → v.is_activated = true := by
  intro v hv hvi
  simp only [activateUser, List.mem_map] at hv
  obtain ⟨w, hw, hvw⟩ := hv
  by_cases hwi : w.id = i
  · rw [if_pos hwi] at hvw
    rw [← hvw]
  · rw [if_neg hwi] at hvw
    rw [← hvw] at hvi
    exact absurd hvi hwi

/-- The member loop never clears an activation flag. -/
theorem addMembersLoop_preserves_activated (gid i : Nat) (l : List String) :
    ∀ db : DB, (∀ v ∈ db.users, v.id = i → v.is_activated = true) →
      ∀ v ∈ ((addMembersLoop gid l db).1).users, v.id = i → v.is_activated = true := by
  induction l with
  | nil => intro db hdb; exact hdb
  | cons a rest ih =>
    intro db hdb
    cases h : userByUsername db (some a) with
    | none =>
      intro v hv hvi
      refine ih db hdb v ?_ hvi
      simpa [addMembersLoop, h] using hv
    | some u =>
      intro v hv hvi
      refine ih (activateUser { db with memberships := db.memberships ++ [(gid, u.id)] } u.id)
        ?_ v ?_ hvi
      · intro w hw hwi
        simp only [activateUser, List.mem_map] at hw
        obtain ⟨w0, hw0, hww⟩ := hw
        by_cases hw0i : w0.id = u.id
        · rw [if_pos hw0i] at hww
          rw [← hww]
        · rw [if_neg hw0i] at hww
          rw [← hww] at hwi ⊢
          exact hdb w0 hw0 hwi
      · simpa [addMembersLoop, h] using hv

/-- Every list entry that resolves leaves its user activated once the
member loop is done. -/
theorem addMembersLoop_activates (gid : Nat) (l : List String) :
    ∀ db : DB, ∀ s ∈ l, ∀ u, userByUsername db (some s) = some u →
      ∀ v ∈ ((addMembersLoop gid l db).1).users, v.id = u.id → v.is_activated = true := by
  induction l with
  | nil =>
    intro db s hs
    cases hs
  | cons a rest ih =>
    intro db s hs u hu
    rcases List.mem_cons.mp hs with rfl | hs2
    · intro v hv hvi
      refine addMembersLoop_preserves_activated gid u.id rest
        (activateUser { db with memberships := db.memberships ++ [(gid, u.id)] } u.id)
        (activateUser_activates _ u.id) v ?_ hvi
      simpa [addMembersLoop, hu] using hv
    · cases h : userByUsername db (some a) with
      | none =>
        intro v hv hvi
        refine ih db s hs2 u hu v ?_ hvi
        simpa [addMembersLoop, h] using hv
      | some w =>
        intro v hv hvi
        have hu2 : userByUsername
            (activateUser { db with memberships := db.memberships ++ [(gid, w.id)] } w.id)
            (some s) = some (if u.id = w.id then { u with is_activated := true } else u) := by
          rw [userByUsername_activateUser, userByUsername_mem_update, hu]
          rfl
        have hid : (if u.id = w.id then { u with is_activated := true } else u).id = u.id := by
          by_cases hc : u.id = w.id <;> simp [hc]
        refine ih _ s hs2 _ hu2 v ?_ (hvi.trans hid.symm)
        simpa [addMembersLoop, h] using hv

/-! ## Claim C6 -/

/-- The store after creating the username-only user alice. -/
def dbAlice : DB := ⟨[⟨1, none, some "alice", none, none, false⟩], [], [], 2, 1⟩

/-- The store after then creating the group "G1" with requested member
list ["alice", "bob"]: alice attached and activated, bob skipped. -/
def dbG1 : DB :=
  ⟨[⟨1, none, some "alice", none, none, true⟩], [⟨1, "G1", none, none⟩], [(1, 1)], 2, 2⟩

/-- C6, counterexample: running the spec's own scenario — create user
alice, then create "G1" with member list ["alice", "bob"] — succeeds
with `added_users_count = 1` and alice as the only member, but the
returned snapshot carries no skipped-count key under any spelling: the
dict literal has exactly five keys and none reports the skipped
entries. -/
theorem C6_counterexample_no_skipped_count_key :
    User.create emptyDB none (some "alice") false none none =
      .ok (⟨1, none, some "alice", none, none, false⟩, dbAlice) ∧
    Group.create dbAlice "G1" (some ["alice", "bob"]) none none =
      .ok (⟨1, "G1", none, 1⟩, dbG1) ∧
    dbG1.memberships = [(1, 1)] ∧
    "skippedCount" ∉ groupCreateResultKeys ∧
    "skipped_count" ∉ groupCreateResultKeys := by
  exact ⟨rfl, rfl, rfl, by decide, by decide⟩

/-- C6 amended: with a fresh name and a resolvable owner argument,
group creation succeeds whatever the member list holds: each entry that
resolves is attached as a member of the new group and activated, each
unresolved entry is skipped without failing the call, and the returned
snapshot's `added_users_count` equals the number of resolving entries.
No skipped count is returned; callers derive the shortfall by
comparing the list length with `added_users_count`.  (The list is
assumed duplicate-free and the store well formed, else the commit can
hit the association table's composite key.) -/
theorem C6_amended_member_attachment (db : DB) (name : String) (l : List String)
    (descr ow : Option String) (owner : Option User)
    (hname : ∀ g ∈ db.groups, g.name ≠ name)
    (howner : findOwner db ow = .ok owner)
    (hl : l.Nodup)
    (hm : db.memberships.Nodup)
    (hfk : ∀ e ∈ db.memberships, e.1 < db.nextGroupPk)
    (hids : (db.users.map (fun u => u.id)).Nodup) :
    Group.create db name (some l) descr ow =
      .ok (⟨db.nextGroupPk, name, descr,
            l.countP (fun s => (userByUsername db (some s)).isSome)⟩,
           (groupCreateStep db name (some l) descr owner).1) ∧
    ((groupCreateStep db name (some l) descr owner).1).memberships =
      db.memberships ++ resolvedEdges db db.nextGroupPk l ∧
    ∀ s ∈ l, ∀ u, userByUsername db (some s) = some u →
      (db.nextGroupPk, u.id) ∈ ((groupCreateStep db name (some l) descr owner).1).memberships ∧
      ∀ v ∈ ((groupCreateStep db name (some l) descr owner).1).users,
        v.id = u.id → v.is_activated = true := by
  have hcount : (groupCreateStep db name (some l) descr owner).2 =
      l.countP (fun s => (userByUsername db (some s)).isSome) := by
    rw [groupCreateStep, addMembersLoop_count]
    rfl
  have hmemeq : ((groupCreateStep db name (some l) descr owner).1).memberships =
      db.memberships ++ resolvedEdges db db.nextGroupPk l := by
    rw [groupCreateStep, addMembersLoop_memberships]
    rfl
  have hresolved : ∀ s u, userByUsername db (some s) = some u →
      u ∈ db.users ∧ u.username = some s := by
    intro s u hu
    refine ⟨List.mem_of_find?_eq_some hu, ?_⟩
    have := List.find?_some hu
    simpa using this
  have hinj : ∀ (s1 s2 : String) (e : Nat × Nat),
      e ∈ (userByUsername db (some s1)).map (fun u => (db.nextGroupPk, u.id)) →
      e ∈ (userByUsername db (some s2)).map (fun u => (db.nextGroupPk, u.id)) →
      s1 = s2 := by
    intro s1 s2 e he1 he2
    rw [Option.mem_def, Option.map_eq_some'] at he1 he2
    obtain ⟨u1, hu1, hue1⟩ := he1
    obtain ⟨u2, hu2, hue2⟩ := he2
    have hid : u1.id = u2.id := congrArg Prod.snd (hue1.trans hue2.symm)
    have hu12 : u1 = u2 :=
      List.inj_on_of_nodup_map hids (hresolved s1 u1 hu1).1 (hresolved s2 u2 hu2).1 hid
    have h1 := (hresolved s1 u1 hu1).2
    have h2 := (hresolved s2 u2 hu2).2
    rw [hu12] at h1
    rw [h1] at h2
    exact Option.some.inj h2
  have hedges_nodup : (resolvedEdges db db.nextGroupPk l).Nodup :=
    List.Nodup.filterMap hinj hl
  have hdisj : List.Disjoint db.memberships (resolvedEdges db db.nextGroupPk l) := by
    intro e he1 he2
    have h1 := hfk e he1
    obtain ⟨s, hs, hfe⟩ := List.mem_filterMap.mp he2
    obtain ⟨u, hu, hue⟩ := Option.map_eq_some'.mp hfe
    rw [← hue] at h1
    simp at h1
  have hnd2 : ((groupCreateStep db name (some l) descr owner).1).memberships.Nodup := by
    rw [hmemeq]
    exact List.nodup_append.mpr ⟨hm, hedges_nodup, hdisj⟩
  have hfind : db.groups.find? (fun g => g.name == name) = none :=
    List.find?_eq_none.mpr (fun g hg => by simp [hname g hg])
  refine ⟨?_, hmemeq, ?_⟩
  · simp only [Group.create, hfind, Option.isSome_none, Bool.false_eq_true, if_false, howner,
      if_pos hnd2, hcount]
  · intro s hs u hu
    constructor
    · rw [hmemeq]
      refine List.mem_append_right _ ?_
      exact List.mem_filterMap.mpr ⟨s, hs, by rw [hu]; rfl⟩
    · intro v hv hvid
      exact addMembersLoop_activates db.nextGroupPk l
        (groupInserted db name descr owner) s hs u hu v hv hvid

/-- C6 amended witness: the alice/bob scenario through the amended
statement — one resolving entry counted, alice attached to the new
group and activated. -/
theorem C6_amended_witness :
    Group.create dbAlice "G1" (some ["alice", "bob"]) none none =
      .ok (⟨1, "G1", none,
            (["alice", "bob"].countP (fun s => (userByUsername dbAlice (some s)).isSome))⟩,
           (groupCreateStep dbAlice "G1" (some ["alice", "bob"]) none none).1) ∧
    (1, 1) ∈ ((groupCreateStep dbAlice "G1" (some ["alice", "bob"]) none none).1).memberships := by
  have h := C6_amended_member_attachment dbAlice "G1" ["alice", "bob"] none none none
    (by decide) (by rfl) (by decide) (by decide) (by decide) (by decide)
  refine ⟨h.1, ?_⟩
  have h2 := (h.2.2 "alice" (by decide) ⟨1, none, some "alice", none, none, false⟩ (by rfl)).1
  exact h2

end UsersGroups
